import Mathlib

/-!
Shallow embedding of the `messari_tg_bot` relay pipeline
(`orchestrator.py`, `storage.py`, `article_fetcher.py`, `translator.py`,
`telegram_client.py`, `config.py`, `hn_client.py`).

Modelling conventions:
* Python `datetime` values are modelled as epoch seconds (`Int`);
  `isoformat()` is modelled as decimal rendering of that integer.
* External collaborators (feed parser, HTTP, the Telegram transport,
  the OpenRouter backend, `parsedate_to_datetime`) are oracles packed
  in an `Env` record; every per-attempt network call is a function of
  the attempt index so the retry loops can be stated exactly.
* Python exceptions are `Except Unit` / explicit outcome constructors;
  Python truthiness of strings is the `truthy` helper.
-/

namespace Bot

/-- Python string truthiness for optional fields: a missing value or an
empty string is falsy. -/
def truthy : Option String → Option String
  | none => none
  | some s => if s = "" then none else some s

/-- Does `pat` start `hay`? Helper for the model of Python's `in` test. -/
def listStarts : List Char → List Char → Bool
  | [], _ => true
  | _ :: _, [] => false
  | a :: as, b :: bs => a == b && listStarts as bs

/-- Does `pat` occur as a contiguous run inside `hay`? -/
def listSub (pat : List Char) : List Char → Bool
  | [] => listStarts pat []
  | h :: t => listStarts pat (h :: t) || listSub pat t

/-- Model of the Python `pat in hay` substring test on strings. -/
def strContains (hay pat : String) : Bool :=
  listSub pat.toList hay.toList

/-- Strip the characters of `cs` from both ends of `s`
(Python `s.strip(chars)`). -/
def stripChars (cs : List Char) (s : String) : String :=
  String.mk (((s.toList.dropWhile (cs.contains ·)).reverse.dropWhile
    (cs.contains ·)).reverse)

/-- Drop trailing slashes (Python `link.rstrip("/")`). -/
def rstripSlash (s : String) : String :=
  String.mk ((s.toList.reverse.dropWhile (· == '/')).reverse)

/-- Model of Python `str.lower()`. `Char.toLower` folds the ASCII range,
which covers every stored pattern and keyword (they are kept lower-cased
in the source). -/
def lowerStr (s : String) : String := String.mk (s.toList.map Char.toLower)

/-- Model of Python `str.strip()` (no argument): drop whitespace at both
ends. -/
def trimStr (s : String) : String :=
  String.mk (((s.toList.dropWhile Char.isWhitespace).reverse.dropWhile
    Char.isWhitespace).reverse)

/-- Split on every occurrence of a separator character
(Python `str.split(sep)` for the one-character separators the source uses). -/
def splitChar (sep : Char) : List Char → List (List Char)
  | [] => [[]]
  | c :: cs =>
    if c == sep then [] :: splitChar sep cs
    else
      match splitChar sep cs with
      | [] => [[c]]
      | p :: ps => (c :: p) :: ps

/-- String version of `splitChar`. -/
def splitStr (sep : Char) (s : String) : List String :=
  (splitChar sep s.toList).map String.mk

/-- Model of Python slicing `s[:n]` (by code point). -/
def takeStr (n : Nat) (s : String) : String := String.mk (s.toList.take n)

/-! ### storage.py — the dedup ledger

The sqlite table `processed_items (id TEXT PRIMARY KEY, type, published_at)`
is modelled as a list of rows in insertion order. -/

/-- One row of `processed_items`: `(id, type, published_at)`. -/
abbrev Row := String × String × Option String

/-- The `processed_items` table, in insertion order. -/
abbrev Ledger := List Row

/-- `Storage.is_processed`: `SELECT 1 FROM processed_items WHERE id = ?`. -/
def is_processed (l : Ledger) (item_id : String) : Bool :=
  l.any (fun r => r.1 == item_id)

/-- `Storage.mark_processed`: `INSERT OR IGNORE` on the primary key `id`. -/
def mark_processed (l : Ledger) (item_id item_type : String)
    (published_at : Option String) : Ledger :=
  if is_processed l item_id then l else l ++ [(item_id, item_type, published_at)]

/-! ### config.py -/

/-- `SOURCE_HASHTAGS`, in the source's insertion order. -/
def SOURCE_HASHTAGS : List (String × String) :=
  [("messari.substack.com", "#Messari"),
   ("anchor.fm", "#AnchorFm"),
   ("defi0xjeff.substack.com", "#DeFi0xJeff"),
   ("degencamp.substack.com", "#DegenCamp"),
   ("no-bs-ai.substack.com", "#NoBSAI"),
   ("a16zcrypto.substack.com", "#a16zCrypto"),
   ("nystrom.substack.com", "#Nystrom"),
   ("cryptocomresearch.substack.com", "#CryptoCom"),
   ("hacker-news", "#HackerNews")]

/-- `get_source_hashtag`: first key that is a substring of the lowered URL
wins; `"#Unknown"` otherwise. -/
def get_source_hashtag (url : String) : String :=
  match SOURCE_HASHTAGS.find? (fun kv => strContains (lowerStr url) kv.1) with
  | some kv => kv.2
  | none => "#Unknown"

/-- The fields of `Settings` that the orchestrator reads. -/
structure Settings where
  telegram_chat_id : String
  telegram_channel_id : Option String := none
  research_feeds : List String := []
  newsletter_feeds : List String := []
  poll_interval_minutes : Int := 10
  bootstrap_lookback_hours : Int := 24
  max_items_per_run : Int := 20
  research_tags : List String := []
  newsletter_source_types : List String := []
  translator_mode : String := "dev"
  openrouter_api_key : String := ""
  hn_enabled : Bool := false
  deriving Repr

/-! ### Per-attempt network outcomes and the shared retry loops -/

/-- Outcome of one low-level attempt: a transient network error
(`httpx.ConnectError`/`httpx.TimeoutException`, `telegram NetworkError`/
`TimedOut`), any other exception, or a successful value. -/
inductive NetOutcome (α : Type) where
  | netErr
  | permErr
  | ok (a : α)
  deriving Repr, DecidableEq

/-- Result of a retry loop: the final value or raised error, the list of
backoff waits actually slept (in seconds), and the number of attempts made. -/
abbrev RetryResult (α : Type) := Except Unit α × List Nat × Nat

/-- The `for attempt in range(max_retries)` loop shared by
`Translator._call_openrouter` and `TelegramClient.send_text`:
transient errors wait `2^attempt` seconds and retry while attempts remain,
the last transient error and every non-network error raise. -/
def retryFrom (att : Nat → NetOutcome α) : Nat → Nat → RetryResult α
  | 0, _ => (Except.error (), [], 0)
  | 1, attempt =>
    match att attempt with
    | NetOutcome.ok a => (Except.ok a, [], 1)
    | _ => (Except.error (), [], 1)
  | remaining + 2, attempt =>
    match att attempt with
    | NetOutcome.ok a => (Except.ok a, [], 1)
    | NetOutcome.permErr => (Except.error (), [], 1)
    | NetOutcome.netErr =>
      let r := retryFrom att (remaining + 1) (attempt + 1)
      (r.1, 2 ^ attempt :: r.2.1, r.2.2 + 1)

/-- `ArticleFetcher.fetch_full_article` retry loop: each attempt either hits
a transient network error (retried with `2^attempt` backoff, `None` after the
last), raises some other exception (`return None` at once), or yields the
extracted text, which is returned only when truthy (else `None`, no retry). -/
def fetchFrom (att : Nat → NetOutcome (Option String)) :
    Nat → Nat → Option String × List Nat × Nat
  | 0, _ => (none, [], 0)
  | 1, attempt =>
    match att attempt with
    | NetOutcome.ok t => (truthy t, [], 1)
    | _ => (none, [], 1)
  | remaining + 2, attempt =>
    match att attempt with
    | NetOutcome.ok t => (truthy t, [], 1)
    | NetOutcome.permErr => (none, [], 1)
    | NetOutcome.netErr =>
      let r := fetchFrom att (remaining + 1) (attempt + 1)
      (r.1, 2 ^ attempt :: r.2.1, r.2.2 + 1)

/-- `ArticleFetcher.fetch_full_article` with `max_retries = 3`. -/
def fetch_full_article (att : Nat → NetOutcome (Option String)) :
    Option String × List Nat × Nat :=
  fetchFrom att 3 0

/-- `Translator._call_openrouter`: raises at once when the API key is empty,
otherwise the 3-attempt retry loop. -/
def call_openrouter (api_key : String) (att : Nat → NetOutcome String) :
    RetryResult String :=
  if api_key = "" then (Except.error (), [], 0) else retryFrom att 3 0

/-- `TelegramClient.send_text` stripped of its target/side-effect handling:
in dry-run it only logs and returns; otherwise the 3-attempt retry loop. -/
def send_text_raw (dry_run : Bool) (att : Nat → NetOutcome Unit) :
    RetryResult Unit :=
  if dry_run then (Except.ok (), [], 0) else retryFrom att 3 0

/-! ### translator.py -/

/-- Dev-mode snippets: `[seg.strip() for seg in text.split(".") if seg.strip()]`. -/
def devSnippets (text : String) : List String :=
  (splitStr '.' text).filterMap
    (fun seg => let t := trimStr seg; if t = "" then none else some t)

/-- Number dev-mode snippets: `f"Пункт {idx + 1}: {snippet}"`. -/
def numberSnippets : Nat → List String → List String
  | _, [] => []
  | idx, s :: rest =>
    ("Пункт " ++ toString (idx + 1) ++ ": " ++ s) :: numberSnippets (idx + 1) rest

/-- The dev-mode padding loop: append placeholder bullets until at least
`min_bullets` (3) entries exist. -/
def devPad (bullets : List String) : List String :=
  bullets ++ (List.range (3 - bullets.length)).map
    (fun i => "Пункт " ++ toString (bullets.length + i + 1) ++ ": доп. резюме отсутствует")

/-- `Translator.summarize_to_bullets` in `mode = "dev"`. -/
def devBullets (text : String) : List String :=
  devPad (numberSnippets 0 ((devSnippets text).take 7))

/-- Post-processing of a live OpenRouter bullet response: keep the lines
whose whitespace-strip is nonempty, strip `" -•\t"` from both ends, pad to 3
with `"(пусто)"`, cap at 7. -/
def prodBullets (response : String) : List String :=
  let lines := (splitStr '\n' response).filter (fun l => trimStr l ≠ "")
  let bullets := lines.map (stripChars [' ', '-', '•', '\t'])
  let padded :=
    if bullets.length < 3 then bullets ++ List.replicate (3 - bullets.length) "(пусто)"
    else bullets
  padded.take 7

/-- `Translator.translate_full_text` (default `target_language = "ru"`):
a deterministic stub in dev mode, one OpenRouter call in prod; the waits list
records backoff sleeps. -/
def translate_full_text (mode api_key : String)
    (att : String → Nat → NetOutcome String) (text : String) :
    Except Unit String × List Nat :=
  if mode = "dev" then (Except.ok ("Перевод (заглушка, ru): " ++ text), [])
  else
    let r := call_openrouter api_key (att text)
    (r.1, r.2.1)

/-- `Translator.summarize_to_bullets`: deterministic stub in dev mode,
OpenRouter call plus `prodBullets` post-processing in prod. -/
def summarize_to_bullets (mode api_key : String)
    (att : String → Nat → NetOutcome String) (text : String) :
    Except Unit (List String) × List Nat :=
  if mode = "dev" then (Except.ok (devBullets text), [])
  else
    let r := call_openrouter api_key (att text)
    (r.1.map prodBullets, r.2.1)

/-! ### Feed entries and date resolution (orchestrator.py statics) -/

/-- The feedparser entry fields the orchestrator reads. `content` is the
list of the `value` fields of the entry's content list. Missing keys are
`none`; `published_parsed`/`updated_parsed` carry the epoch seconds that
`calendar.timegm` would produce. -/
structure Entry where
  id : Option String := none
  link : Option String := none
  title : Option String := none
  summary : Option String := none
  description : Option String := none
  content : List String := []
  published_parsed : Option Int := none
  updated_parsed : Option Int := none
  published : Option String := none
  updated : Option String := none
  deriving Repr

/-- `Orchestrator._entry_date` with `parse` standing for
`parsedate_to_datetime` (`none` = the call raised): structured timestamps
first, then the textual fields; a parse failure is caught and yields `none`
without falling through to later fields. -/
def entry_date (parse : String → Option Int) (e : Entry) : Option Int :=
  match e.published_parsed with
  | some t => some t
  | none =>
    match e.updated_parsed with
    | some t => some t
    | none =>
      match truthy e.published with
      | some s => parse s
      | none =>
        match truthy e.updated with
        | some s => parse s
        | none => none

/-- The freshness test of the per-entry loops:
`if publish_date and publish_date < lookback: continue`. -/
def freshDrop (publish_date : Option Int) (lookback : Int) : Bool :=
  match publish_date with
  | some d => decide (d < lookback)
  | none => false

/-- `Orchestrator._entry_content`: first content value if the content list
is nonempty, else the first truthy of summary/description, else `""`. -/
def entry_content (e : Entry) : String :=
  match e.content with
  | v :: _ => v
  | [] =>
    match truthy e.summary with
    | some s => s
    | none =>
      match truthy e.description with
      | some d => d
      | none => ""

/-- `Orchestrator._slug`. -/
def slug (e : Entry) : String :=
  match truthy e.link with
  | some link => takeStr 80 ((splitChar '/' (rstripSlash link).toList).map String.mk |>.getLastD "")
  | none =>
    let t := takeStr 80 ((truthy e.title).getD "")
    if t = "" then "item" else t

/-- `Orchestrator._passes_filters`: any keyword, lower-cased, is a substring
of the lowered `title + " " + summary + " " + description`. -/
def passes_filters (e : Entry) (keywords : List String) : Bool :=
  let haystack := lowerStr ((e.title.getD "") ++ " " ++ (e.summary.getD "") ++ " "
    ++ (e.description.getD ""))
  keywords.any (fun k => strContains haystack (lowerStr k))

/-- The dedup key: first truthy of `entry.id`, `entry.link`, `entry.title`. -/
def entryId (e : Entry) : Option String :=
  truthy e.id <|> truthy e.link <|> truthy e.title

/-- `Orchestrator._is_error_summary`: the fixed failure-signature phrases. -/
def error_patterns : List String :=
  ["произошла ошибка при загрузке",
   "необходимо перезагрузить страницу",
   "для изменения настроек уведомлений требуется авторизация",
   "error occurred",
   "please refresh",
   "authorization required"]

/-- `Orchestrator._is_error_summary`: join the bullets with spaces, lower
the result, and test each failure-signature phrase for containment. -/
def is_error_summary (bullets : List String) : Bool :=
  let combined := lowerStr (String.intercalate " " bullets)
  error_patterns.any (fun p => strContains combined p)

/-! ### hn_client.py data and the orchestrator state machine -/

/-- `HNStory` (`hn_client.py`); `author` models the Python field `by`
(a Lean keyword). -/
structure HNStory where
  id : Int
  title : String := ""
  url : Option String := none
  author : String := ""
  time : Int := 0
  score : Int := 0
  descendants : Int := 0
  deriving Repr

/-- Observable process state: the sqlite ledger and the messages actually
handed to the Telegram transport, as `(target_id, text)` in send order. -/
structure St where
  ledger : Ledger := []
  sent : List (String × String) := []
  deriving Repr, DecidableEq

/-- The external collaborators, as oracles: the feed client, the date
parser, and the per-attempt outcomes of the article fetch, the two
OpenRouter calls (keyed by source text) and the Telegram send (keyed by
target and text). `dry_run` is `TelegramClient.dry_run`; `has_hn` is the
presence of `Orchestrator.hn_client`; `stories` is what
`HNClient.fetch_newest_stories` returns for a given limit. -/
structure Env where
  dry_run : Bool := false
  fetch_feed : String → List Entry := fun _ => []
  parse_date : String → Option Int := fun _ => none
  fetch_att : String → Nat → NetOutcome (Option String) := fun _ _ => NetOutcome.permErr
  trans_att : String → Nat → NetOutcome String := fun _ _ => NetOutcome.permErr
  tldr_att : String → Nat → NetOutcome String := fun _ _ => NetOutcome.permErr
  send_att : String → String → Nat → NetOutcome Unit := fun _ _ _ => NetOutcome.ok ()
  has_hn : Bool := false
  stories : Int → List HNStory := fun _ => []

/-- `ProcessedItem` (`orchestrator.py`), with datetimes as epoch seconds. -/
structure ProcessedItem where
  item_id : String
  slug : String
  title : String
  url : String
  publish_date : Int
  content : String
  item_type : String
  hn_url : Option String := none
  source_url : Option String := none
  deriving Repr

/-- `TelegramClient.send_text` with its side effect: resolve the target,
return at once in dry-run, else run the retry loop and record the message
on success; `false` means the call raised. -/
def send_text (cfg : Settings) (env : Env) (text : String) (to_channel : Bool)
    (st : St) : St × Bool :=
  let target_id :=
    if to_channel then
      match truthy cfg.telegram_channel_id with
      | some cid => cid
      | none => cfg.telegram_chat_id
    else cfg.telegram_chat_id
  match (send_text_raw env.dry_run (env.send_att target_id text)).1 with
  | Except.ok _ =>
    (if env.dry_run then st else { st with sent := st.sent ++ [(target_id, text)] }, true)
  | Except.error _ => (st, false)

/-- The message composition inside `Orchestrator._deliver_item`. -/
def compose_message (item : ProcessedItem) (bullets : List String)
    (hashtag : String) : String :=
  let bullet_lines := String.intercalate "\n" ((bullets.take 7).map (fun b => "- " ++ b))
  let message := hashtag ++ "\nTLDR (RU):\n" ++ bullet_lines
  match truthy item.hn_url with
  | some h =>
    if item.item_type = "hn" ∧ h ≠ item.url then
      message ++ "\n\nOriginal: " ++ item.url ++ "\nHN Discussion: " ++ h
    else message ++ "\n\nOriginal: " ++ item.url
  | none => message ++ "\n\nOriginal: " ++ item.url

/-- `Orchestrator._deliver_item`: suppress on a failure signature (early
return, success), else send to the chat and, when a channel is configured,
to the channel; `false` means a send raised. -/
def deliver_item (cfg : Settings) (env : Env) (item : ProcessedItem)
    (bullets : List String) (hashtag : String) (st : St) : St × Bool :=
  if is_error_summary bullets then (st, true)
  else
    let message := compose_message item bullets hashtag
    match send_text cfg env message false st with
    | (st1, true) =>
      match truthy cfg.telegram_channel_id with
      | some _ => send_text cfg env message true st1
      | none => (st1, true)
    | (st1, false) => (st1, false)

/-- The full-article resolution of the per-entry try block: fetch from the
link when present, fall back to the entry's own content when the fetch
yields nothing truthy. -/
def entry_article_text (env : Env) (e : Entry) : String :=
  let url := (truthy e.link).getD ""
  let fetched := if url = "" then none else (fetch_full_article (env.fetch_att url)).1
  match fetched with
  | some s => if s = "" then entry_content e else s
  | none => entry_content e

/-- Rendering of a model datetime for the ledger (`isoformat()`), modelled
as the decimal epoch value. -/
def isoformat (t : Int) : String := toString t

/-- One iteration of the per-entry loop shared by `_process_research` and
`_process_newsletters`: the filter chain, then the guarded try block; the
Bool reports whether the entry advanced (`processed_count += 1`). Every
exception inside the try block is caught and yields `false`. -/
def process_entry (cfg : Settings) (env : Env) (now lookback : Int)
    (tags : List String) (item_type : String) (feed_url hashtag : String)
    (e : Entry) (st : St) : St × Bool :=
  if tags ≠ [] ∧ passes_filters e tags = false then (st, false)
  else
    let publish_date := entry_date env.parse_date e
    if freshDrop publish_date lookback then (st, false)
    else
      match entryId e with
      | none => (st, false)
      | some entry_id =>
        if is_processed st.ledger entry_id then (st, false)
        else
          let full_article := entry_article_text env e
          match (translate_full_text cfg.translator_mode cfg.openrouter_api_key
              env.trans_att full_article).1 with
          | Except.error _ => (st, false)
          | Except.ok translated_full =>
            match (summarize_to_bullets cfg.translator_mode cfg.openrouter_api_key
                env.tldr_att full_article).1 with
            | Except.error _ => (st, false)
            | Except.ok bullets =>
              let item : ProcessedItem :=
                { item_id := entry_id
                  slug := slug e
                  title := (truthy e.title).getD "Без названия"
                  url := (truthy e.link).getD ""
                  publish_date := publish_date.getD now
                  content := translated_full
                  item_type := item_type
                  source_url := some feed_url }
              match deliver_item cfg env item bullets hashtag st with
              | (st1, true) =>
                let committed := mark_processed st1.ledger item.item_id item.item_type
                  (some (isoformat item.publish_date))
                (if env.dry_run then st1 else { st1 with ledger := committed }, true)
              | (st1, false) => (st1, false)

/-- The inner `for entry in entries` loop with its
`if processed_count >= limit: break` head check. -/
def entry_loop (cfg : Settings) (env : Env) (now lookback : Int)
    (tags : List String) (item_type : String) (feed_url hashtag : String)
    (limit : Int) : List Entry → St → Int → St × Int
  | [], st, c => (st, c)
  | e :: es, st, c =>
    if c ≥ limit then (st, c)
    else
      let r := process_entry cfg env now lookback tags item_type feed_url hashtag e st
      entry_loop cfg env now lookback tags item_type feed_url hashtag limit es r.1
        (if r.2 then c + 1 else c)

/-- The outer `for feed_url in feeds` loop with its budget head check;
`_fetch_from_url` failures already yield `[]` inside `env.fetch_feed`. -/
def feed_loop (cfg : Settings) (env : Env) (now lookback : Int)
    (tags : List String) (item_type : String) (limit : Int) :
    List String → St → Int → St × Int
  | [], st, c => (st, c)
  | f :: fs, st, c =>
    if c ≥ limit then (st, c)
    else
      let entries := env.fetch_feed f
      let hashtag := get_source_hashtag f
      let r := entry_loop cfg env now lookback tags item_type f hashtag limit entries st c
      feed_loop cfg env now lookback tags item_type limit fs r.1 r.2

/-- `Orchestrator._process_research`. -/
def process_research (cfg : Settings) (env : Env) (now limit : Int)
    (st : St) : St × Int :=
  let lookback := now - cfg.bootstrap_lookback_hours * 3600
  feed_loop cfg env now lookback cfg.research_tags "research" limit
    cfg.research_feeds st 0

/-- `Orchestrator._process_newsletters`. -/
def process_newsletters (cfg : Settings) (env : Env) (now limit : Int)
    (st : St) : St × Int :=
  let lookback := now - cfg.bootstrap_lookback_hours * 3600
  feed_loop cfg env now lookback cfg.newsletter_source_types "newsletter" limit
    cfg.newsletter_feeds st 0

/-- The `for story in stories` loop of `_process_hacker_news`: budget head
check, dedup on the derived id, then the guarded try block. -/
def hn_loop (cfg : Settings) (env : Env) (hashtag : String) (limit : Int) :
    List HNStory → St → Int → St × Int
  | [], st, c => (st, c)
  | story :: rest, st, c =>
    if c ≥ limit then (st, c)
    else
      let entry_id := "hn_" ++ toString story.id
      if is_processed st.ledger entry_id then hn_loop cfg env hashtag limit rest st c
      else
        let hn_url := "https://news.ycombinator.com/item?id=" ++ toString story.id
        let url := (truthy story.url).getD hn_url
        let fetched :=
          if (truthy story.url).isSome then (fetch_full_article (env.fetch_att url)).1
          else none
        let full_article :=
          match fetched with
          | some s => if s = "" then story.title else s
          | none => story.title
        match (translate_full_text cfg.translator_mode cfg.openrouter_api_key
            env.trans_att full_article).1 with
        | Except.error _ => hn_loop cfg env hashtag limit rest st c
        | Except.ok translated_full =>
          match (summarize_to_bullets cfg.translator_mode cfg.openrouter_api_key
              env.tldr_att full_article).1 with
          | Except.error _ => hn_loop cfg env hashtag limit rest st c
          | Except.ok bullets =>
            let item : ProcessedItem :=
              { item_id := entry_id
                slug := entry_id
                title := if story.title = "" then "Без названия" else story.title
                url := url
                publish_date := story.time
                content := translated_full
                item_type := "hn"
                hn_url := some hn_url
                source_url := some "https://news.ycombinator.com/newest" }
            match deliver_item cfg env item bullets hashtag st with
            | (st1, true) =>
              let committed := mark_processed st1.ledger entry_id "hn"
                (some (isoformat story.time))
              let st2 := if env.dry_run then st1 else { st1 with ledger := committed }
              hn_loop cfg env hashtag limit rest st2 (c + 1)
            | (st1, false) => hn_loop cfg env hashtag limit rest st1 c

/-- `Orchestrator._process_hacker_news`. -/
def process_hacker_news (cfg : Settings) (env : Env) (limit : Int)
    (st : St) : St × Int :=
  if env.has_hn = false then (st, 0)
  else
    hn_loop cfg env (get_source_hashtag "https://news.ycombinator.com/newest")
      limit (env.stories limit) st 0

/-- Result of one cycle: the final state, the count in the final
`"Poll cycle complete"` log line, and the Python return value —
`run_once` is annotated `-> None` and has no return statement. -/
structure RunResult where
  state : St
  logged_total : Int
  py_return : Option Int
  deriving Repr, DecidableEq

/-- `Orchestrator.run_once`: research first with the whole budget, then
newsletters with what remains (if any), then the story index if a client
exists, it is enabled, and budget remains. -/
def run_once (cfg : Settings) (env : Env) (now : Int) (st : St) : RunResult :=
  let remaining0 := cfg.max_items_per_run
  let r := process_research cfg env now remaining0 st
  let remaining1 := remaining0 - r.2
  let n :=
    if remaining1 > 0 then process_newsletters cfg env now remaining1 r.1
    else (r.1, 0)
  let remaining2 := remaining1 - n.2
  let h :=
    if remaining2 > 0 ∧ env.has_hn = true ∧ cfg.hn_enabled = true then
      process_hacker_news cfg env remaining2 n.1
    else (n.1, 0)
  { state := h.1, logged_total := r.2 + n.2 + h.2, py_return := none }

/-! ### Helper lemmas -/

theorem is_processed_mark (l : Ledger) (a t : String) (p : Option String)
    (x : String) :
    is_processed (mark_processed l a t p) x = (is_processed l x || a == x) := by
  unfold mark_processed
  by_cases h : is_processed l a
  · rw [if_pos h]
    by_cases hx : a = x
    · subst hx
      simp [h]
    · simp [beq_eq_false_iff_ne.mpr hx]
  · rw [if_neg h]
    simp [is_processed, List.any_append]

theorem mark_processed_already (l : Ledger) (a t : String) (p : Option String)
    (h : is_processed l a = true) : mark_processed l a t p = l := by
  simp [mark_processed, h]

theorem is_processed_mark_self (l : Ledger) (a t : String) (p : Option String) :
    is_processed (mark_processed l a t p) a = true := by
  simp [is_processed_mark]

theorem fetchFrom_attempts_le (att : Nat → NetOutcome (Option String)) :
    ∀ (r a : Nat), (fetchFrom att r a).2.2 ≤ r
  | 0, a => by simp [fetchFrom]
  | 1, a => by
    unfold fetchFrom
    cases att a <;> simp
  | (n + 2), a => by
    have ih := fetchFrom_attempts_le att (n + 1) (a + 1)
    unfold fetchFrom
    cases h : att a with
    | ok t => simp
    | permErr => simp
    | netErr =>
      dsimp only
      omega

/-! ### Claim theorems -/

/-- C5: the dedup ledger's record operation is idempotent — recording the
same id twice (with any second arguments) leaves the id present, exactly
one row carries that id, and rows for all other ids are untouched. -/
theorem c5_record_idempotent (l : Ledger) (item_id t t' : String)
    (p p' : Option String)
    (h : (l.filter (fun r => r.1 == item_id)).length ≤ 1) :
    is_processed (mark_processed (mark_processed l item_id t p) item_id t' p')
      item_id = true ∧
    ((mark_processed (mark_processed l item_id t p) item_id t' p').filter
      (fun r => r.1 == item_id)).length = 1 ∧
    (mark_processed (mark_processed l item_id t p) item_id t' p').filter
      (fun r => r.1 != item_id) = l.filter (fun r => r.1 != item_id) := by
  have hsecond : mark_processed (mark_processed l item_id t p) item_id t' p'
      = mark_processed l item_id t p :=
    mark_processed_already _ _ _ _ (is_processed_mark_self l item_id t p)
  rw [hsecond]
  refine ⟨is_processed_mark_self l item_id t p, ?_, ?_⟩
  · by_cases hmem : is_processed l item_id
    · rw [mark_processed_already l item_id t p hmem]
      obtain ⟨r, hr, hpr⟩ := List.any_eq_true.mp hmem
      have hpos : 0 < (l.filter (fun r => r.1 == item_id)).length :=
        List.length_pos.mpr (List.ne_nil_of_mem (List.mem_filter.mpr ⟨hr, hpr⟩))
      omega
    · unfold mark_processed
      rw [if_neg hmem, List.filter_append]
      have hnil : l.filter (fun r => r.1 == item_id) = [] := by
        rw [List.filter_eq_nil_iff]
        intro a ha hpa
        exact hmem (List.any_eq_true.mpr ⟨a, ha, hpa⟩)
      simp [hnil]
  · by_cases hmem : is_processed l item_id
    · rw [mark_processed_already l item_id t p hmem]
    · unfold mark_processed
      rw [if_neg hmem, List.filter_append]
      simp

theorem c5_record_idempotent_witness :
    ((([("b", "x", none)] : Ledger).filter (fun r => r.1 == "a")).length ≤ 1) ∧
    (is_processed (mark_processed (mark_processed [("b", "x", none)] "a"
        "research" (some "1")) "a" "hn" none) "a" = true ∧
      ((mark_processed (mark_processed [("b", "x", none)] "a" "research"
          (some "1")) "a" "hn" none).filter (fun r => r.1 == "a")).length = 1 ∧
      (mark_processed (mark_processed [("b", "x", none)] "a" "research"
          (some "1")) "a" "hn" none).filter (fun r => r.1 != "a")
        = ([("b", "x", none)] : Ledger).filter (fun r => r.1 != "a")) :=
  ⟨by decide, c5_record_idempotent [("b", "x", none)] "a" "research" "hn"
    (some "1") none (by decide)⟩

/-- C4: a content fetch whose first two attempts hit a timeout and whose
third attempt extracts non-empty content returns that content after exactly
three attempts, having waited `2^attempt` seconds — 1s then 2s. -/
theorem c4_fetch_retry_backoff (att : Nat → NetOutcome (Option String))
    (c : String) (h0 : att 0 = NetOutcome.netErr)
    (h1 : att 1 = NetOutcome.netErr) (h2 : att 2 = NetOutcome.ok (some c))
    (hc : c ≠ "") :
    fetch_full_article att = (some c, [1, 2], 3) := by
  simp [fetch_full_article, fetchFrom, h0, h1, h2, truthy, hc]

theorem c4_fetch_retry_backoff_witness :
    fetch_full_article
      (fun n => if n < 2 then NetOutcome.netErr else NetOutcome.ok (some "body"))
      = (some "body", [1, 2], 3) :=
  c4_fetch_retry_backoff _ "body" rfl rfl rfl (by decide)

/-- C6: in each network-calling step — content fetch, OpenRouter call,
Telegram send — a non-network failure is never retried: it ends the
operation at its first occurrence with no further attempt and no backoff
wait (also when it follows a transient failure). -/
theorem c6_nonnetwork_not_retried
    (attF : Nat → NetOutcome (Option String)) (key : String)
    (attT attT2 : Nat → NetOutcome String) (attS : Nat → NetOutcome Unit)
    (hkey : key ≠ "")
    (hF : attF 0 = NetOutcome.permErr) (hT : attT 0 = NetOutcome.permErr)
    (hT2a : attT2 0 = NetOutcome.netErr) (hT2b : attT2 1 = NetOutcome.permErr)
    (hS : attS 0 = NetOutcome.permErr) :
    fetch_full_article attF = (none, [], 1) ∧
    call_openrouter key attT = (Except.error (), [], 1) ∧
    call_openrouter key attT2 = (Except.error (), [1], 2) ∧
    send_text_raw false attS = (Except.error (), [], 1) := by
  refine ⟨?_, ?_, ?_, ?_⟩
  · simp [fetch_full_article, fetchFrom, hF]
  · simp [call_openrouter, retryFrom, hT, hkey]
  · simp [call_openrouter, retryFrom, hT2a, hT2b, hkey]
  · simp [send_text_raw, retryFrom, hS]

theorem c6_nonnetwork_not_retried_witness :
    fetch_full_article (fun _ => NetOutcome.permErr) = (none, [], 1) ∧
    call_openrouter "k" (fun _ => NetOutcome.permErr) = (Except.error (), [], 1) ∧
    call_openrouter "k"
      (fun n => if n = 0 then NetOutcome.netErr else NetOutcome.permErr)
      = (Except.error (), [1], 2) ∧
    send_text_raw false (fun _ => NetOutcome.permErr) = (Except.error (), [], 1) :=
  c6_nonnetwork_not_retried (fun _ => NetOutcome.permErr) "k"
    (fun _ => NetOutcome.permErr)
    (fun n => if n = 0 then NetOutcome.netErr else NetOutcome.permErr)
    (fun _ => NetOutcome.permErr) (by decide) rfl rfl rfl rfl rfl

/-- C8: a bullet list whose lower-cased space-joined text contains
`"please refresh"` trips the failure-signature guard, and delivery for that
item is suppressed with the state untouched and no exception, so no target
receives a message and processing continues for other items. -/
theorem c8_error_pattern_suppresses_delivery (bullets : List String)
    (cfg : Settings) (env : Env) (item : ProcessedItem) (hashtag : String)
    (st : St)
    (h : strContains (lowerStr (String.intercalate " " bullets))
      "please refresh" = true) :
    is_error_summary bullets = true ∧
    deliver_item cfg env item bullets hashtag st = (st, true) := by
  have herr : is_error_summary bullets = true := by
    unfold is_error_summary
    refine List.any_eq_true.mpr ⟨"please refresh", ?_, h⟩
    simp [error_patterns]
  exact ⟨herr, by simp [deliver_item, herr]⟩

/-- C7: an entry whose publish date resolution yields `none` is never
dropped by the freshness filter — the drop test is false for every
lookback bound, and the whole per-entry step does not depend on the
lookback bound at all. -/
theorem c7_unparseable_date_is_fresh (cfg : Settings) (env : Env)
    (now lb lb' : Int) (tags : List String)
    (item_type feed_url hashtag : String) (e : Entry) (st : St)
    (h : entry_date env.parse_date e = none) :
    freshDrop (entry_date env.parse_date e) lb = false ∧
    process_entry cfg env now lb tags item_type feed_url hashtag e st
      = process_entry cfg env now lb' tags item_type feed_url hashtag e st := by
  refine ⟨by simp [freshDrop, h], ?_⟩
  unfold process_entry
  rw [h]
  simp only [freshDrop]

theorem c7_unparseable_date_is_fresh_witness :
    entry_date (fun _ => none)
      { title := some "T", published := some "not-a-date" } = none ∧
    (freshDrop (entry_date ({ parse_date := fun _ => none } : Env).parse_date
        { title := some "T", published := some "not-a-date" }) 100 = false ∧
      process_entry { telegram_chat_id := "chat" }
          { parse_date := fun _ => none } 0 100 [] "research" "f" "#Unknown"
          { title := some "T", published := some "not-a-date" } { }
        = process_entry { telegram_chat_id := "chat" }
          { parse_date := fun _ => none } 0 999999 [] "research" "f" "#Unknown"
          { title := some "T", published := some "not-a-date" } { }) :=
  ⟨rfl, c7_unparseable_date_is_fresh { telegram_chat_id := "chat" }
    { parse_date := fun _ => none } 0 100 999999 [] "research" "f" "#Unknown"
    { title := some "T", published := some "not-a-date" } { } rfl⟩

/-- C3: when the failure-signature guard suppresses delivery of an item in
non-dry-run mode, the per-entry step still advances it and commits it to the
dedup ledger with no message sent, and a later run of the same entry is
skipped by the dedup filter. -/
theorem c3_suppressed_item_still_marked (cfg : Settings) (env : Env)
    (now lookback : Int) (tags : List String)
    (item_type feed_url hashtag : String) (e : Entry) (st : St)
    (entry_id translated : String) (bullets : List String)
    (hdry : env.dry_run = false)
    (htags : tags = [] ∨ passes_filters e tags = true)
    (hfresh : freshDrop (entry_date env.parse_date e) lookback = false)
    (hid : entryId e = some entry_id)
    (hnew : is_processed st.ledger entry_id = false)
    (htr : (translate_full_text cfg.translator_mode cfg.openrouter_api_key
      env.trans_att (entry_article_text env e)).1 = Except.ok translated)
    (hsum : (summarize_to_bullets cfg.translator_mode cfg.openrouter_api_key
      env.tldr_att (entry_article_text env e)).1 = Except.ok bullets)
    (herr : is_error_summary bullets = true) :
    process_entry cfg env now lookback tags item_type feed_url hashtag e st
      = (⟨mark_processed st.ledger entry_id item_type
          (some (isoformat ((entry_date env.parse_date e).getD now))), st.sent⟩,
         true) ∧
    process_entry cfg env now lookback tags item_type feed_url hashtag e
        ⟨mark_processed st.ledger entry_id item_type
          (some (isoformat ((entry_date env.parse_date e).getD now))), st.sent⟩
      = (⟨mark_processed st.ledger entry_id item_type
          (some (isoformat ((entry_date env.parse_date e).getD now))), st.sent⟩,
         false) := by
  have hnotfil : ¬(tags ≠ [] ∧ passes_filters e tags = false) := by
    rcases htags with h1 | h1 <;> simp [h1]
  have hdel : ∀ item st0, deliver_item cfg env item bullets hashtag st0
      = (st0, true) := fun item st0 => by simp [deliver_item, herr]
  constructor
  · unfold process_entry
    rw [if_neg hnotfil]
    simp only [hfresh, Bool.false_eq_true, if_false, hid, hnew, htr, hsum, hdel,
      hdry, Bool.false_eq_true, if_false]
  · unfold process_entry
    rw [if_neg hnotfil]
    simp only [hfresh, Bool.false_eq_true, if_false, hid]
    simp [is_processed_mark_self]

theorem c3_suppressed_item_still_marked_witness :
    process_entry { telegram_chat_id := "chat" } { } 5 0 [] "research" "f"
        "#Unknown"
        { id := some "a2", title := some "T", summary := some "please refresh" }
        { }
      = (⟨[("a2", "research", some "5")], []⟩, true) ∧
    process_entry { telegram_chat_id := "chat" } { } 5 0 [] "research" "f"
        "#Unknown"
        { id := some "a2", title := some "T", summary := some "please refresh" }
        ⟨[("a2", "research", some "5")], []⟩
      = (⟨[("a2", "research", some "5")], []⟩, false) := by
  have h := c3_suppressed_item_still_marked { telegram_chat_id := "chat" } { }
    5 0 [] "research" "f" "#Unknown"
    { id := some "a2", title := some "T", summary := some "please refresh" } { }
    "a2" "Перевод (заглушка, ru): please refresh" (devBullets "please refresh")
    rfl (Or.inl rfl) rfl rfl rfl rfl rfl (by decide)
  exact h

theorem c8_error_pattern_suppresses_delivery_witness :
    is_error_summary ["Good point", "Please REFRESH the page"] = true ∧
    deliver_item { telegram_chat_id := "chat" } { }
      { item_id := "a1", slug := "a1", title := "T", url := "u",
        publish_date := 0, content := "c", item_type := "research" }
      ["Good point", "Please REFRESH the page"] "#Messari" { }
      = ({ }, true) :=
  c8_error_pattern_suppresses_delivery _ _ _ _ _ _ (by decide)

/-! ### Dry-run frame lemmas (for C9) -/

theorem send_text_dry (cfg : Settings) (env : Env) (text : String)
    (tc : Bool) (st : St) (h : env.dry_run = true) :
    send_text cfg env text tc st = (st, true) := by
  simp [send_text, send_text_raw, h]

theorem deliver_item_dry (cfg : Settings) (env : Env) (item : ProcessedItem)
    (bullets : List String) (hashtag : String) (st : St)
    (h : env.dry_run = true) :
    deliver_item cfg env item bullets hashtag st = (st, true) := by
  unfold deliver_item
  split
  · rfl
  · dsimp only
    rw [send_text_dry cfg env _ false st h]
    dsimp only
    split
    · exact send_text_dry cfg env _ true st h
    · rfl

theorem process_entry_dry (cfg : Settings) (env : Env) (now lookback : Int)
    (tags : List String) (item_type feed_url hashtag : String) (e : Entry)
    (st : St) (h : env.dry_run = true) :
    (process_entry cfg env now lookback tags item_type feed_url hashtag e st).1
      = st := by
  have hdel : ∀ item bl st0, deliver_item cfg env item bl hashtag st0 = (st0, true) :=
    fun item bl st0 => deliver_item_dry cfg env item bl hashtag st0 h
  unfold process_entry
  repeat' split
  all_goals simp_all
  all_goals repeat' split
  all_goals simp_all

theorem entry_loop_dry (cfg : Settings) (env : Env) (now lookback : Int)
    (tags : List String) (item_type feed_url hashtag : String) (limit : Int)
    (h : env.dry_run = true) :
    ∀ (es : List Entry) (st : St) (c : Int),
      (entry_loop cfg env now lookback tags item_type feed_url hashtag limit
        es st c).1 = st
  | [], st, c => by simp [entry_loop]
  | e :: es, st, c => by
    unfold entry_loop
    split
    · rfl
    · dsimp only
      rw [entry_loop_dry cfg env now lookback tags item_type feed_url hashtag
        limit h es _ _]
      exact process_entry_dry cfg env now lookback tags item_type feed_url
        hashtag e st h

theorem feed_loop_dry (cfg : Settings) (env : Env) (now lookback : Int)
    (tags : List String) (item_type : String) (limit : Int)
    (h : env.dry_run = true) :
    ∀ (fs : List String) (st : St) (c : Int),
      (feed_loop cfg env now lookback tags item_type limit fs st c).1 = st
  | [], st, c => by simp [feed_loop]
  | f :: fs, st, c => by
    unfold feed_loop
    split
    · rfl
    · dsimp only
      rw [feed_loop_dry cfg env now lookback tags item_type limit h fs _ _]
      exact entry_loop_dry cfg env now lookback tags item_type f
        (get_source_hashtag f) limit h (env.fetch_feed f) st c

theorem hn_loop_dry (cfg : Settings) (env : Env) (hashtag : String)
    (limit : Int) (h : env.dry_run = true) :
    ∀ (stories : List HNStory) (st : St) (c : Int),
      (hn_loop cfg env hashtag limit stories st c).1 = st
  | [], st, c => by simp [hn_loop]
  | story :: rest, st, c => by
    have ih := hn_loop_dry cfg env hashtag limit h rest
    have hdel : ∀ item bl st0, deliver_item cfg env item bl hashtag st0 = (st0, true) :=
      fun item bl st0 => deliver_item_dry cfg env item bl hashtag st0 h
    unfold hn_loop
    repeat' split
    all_goals simp_all
    all_goals repeat' split
    all_goals simp_all

/-- C9: with the dry-run flag set, one whole cycle leaves the observable
state untouched — no message reaches the transport and the dedup ledger is
never committed. -/
theorem c9_dry_run_no_state_change (cfg : Settings) (env : Env) (now : Int)
    (st : St) (h : env.dry_run = true) :
    (run_once cfg env now st).state = st := by
  unfold run_once process_research process_newsletters process_hacker_news
  dsimp only
  rw [feed_loop_dry cfg env now _ cfg.research_tags "research"
    cfg.max_items_per_run h cfg.research_feeds st 0]
  split
  · rw [feed_loop_dry cfg env now _ cfg.newsletter_source_types "newsletter" _ h
      cfg.newsletter_feeds st 0]
    split
    · split
      · rfl
      · exact hn_loop_dry cfg env _ _ h _ st 0
    · rfl
  · split
    · split
      · rfl
      · exact hn_loop_dry cfg env _ _ h _ st 0
    · rfl

/-! ### Budget lemmas (for C1) -/

theorem entry_loop_count_mono (cfg : Settings) (env : Env) (now lookback : Int)
    (tags : List String) (item_type feed_url hashtag : String) (limit : Int) :
    ∀ (es : List Entry) (st : St) (c : Int),
      c ≤ (entry_loop cfg env now lookback tags item_type feed_url hashtag
        limit es st c).2
  | [], st, c => le_refl c
  | e :: es, st, c => by
    unfold entry_loop
    split
    · exact le_refl c
    · dsimp only
      refine le_trans ?_ (entry_loop_count_mono cfg env now lookback tags
        item_type feed_url hashtag limit es _ _)
      split <;> omega

theorem entry_loop_count_le (cfg : Settings) (env : Env) (now lookback : Int)
    (tags : List String) (item_type feed_url hashtag : String) (limit : Int) :
    ∀ (es : List Entry) (st : St) (c : Int), c ≤ limit →
      (entry_loop cfg env now lookback tags item_type feed_url hashtag
        limit es st c).2 ≤ limit
  | [], st, c, h => h
  | e :: es, st, c, h => by
    unfold entry_loop
    split
    · exact h
    · rename_i hlt
      dsimp only
      refine entry_loop_count_le cfg env now lookback tags item_type feed_url
        hashtag limit es _ _ ?_
      split <;> omega

theorem feed_loop_count_mono (cfg : Settings) (env : Env) (now lookback : Int)
    (tags : List String) (item_type : String) (limit : Int) :
    ∀ (fs : List String) (st : St) (c : Int),
      c ≤ (feed_loop cfg env now lookback tags item_type limit fs st c).2
  | [], st, c => le_refl c
  | f :: fs, st, c => by
    unfold feed_loop
    split
    · exact le_refl c
    · dsimp only
      exact le_trans
        (entry_loop_count_mono cfg env now lookback tags item_type f
          (get_source_hashtag f) limit (env.fetch_feed f) st c)
        (feed_loop_count_mono cfg env now lookback tags item_type limit fs _ _)

theorem feed_loop_count_le (cfg : Settings) (env : Env) (now lookback : Int)
    (tags : List String) (item_type : String) (limit : Int) :
    ∀ (fs : List String) (st : St) (c : Int), c ≤ limit →
      (feed_loop cfg env now lookback tags item_type limit fs st c).2 ≤ limit
  | [], st, c, h => h
  | f :: fs, st, c, h => by
    unfold feed_loop
    split
    · exact h
    · dsimp only
      exact feed_loop_count_le cfg env now lookback tags item_type limit fs _ _
        (entry_loop_count_le cfg env now lookback tags item_type f
          (get_source_hashtag f) limit (env.fetch_feed f) st c h)

theorem hn_loop_count_mono (cfg : Settings) (env : Env) (hashtag : String)
    (limit : Int) :
    ∀ (stories : List HNStory) (st : St) (c : Int),
      c ≤ (hn_loop cfg env hashtag limit stories st c).2
  | [], st, c => le_refl c
  | story :: rest, st, c => by
    have ih := hn_loop_count_mono cfg env hashtag limit rest
    unfold hn_loop
    dsimp only
    repeat' split
    all_goals first
      | exact le_refl c
      | exact ih _ c
      | exact le_trans (by omega) (ih _ (c + 1))

theorem hn_loop_count_le (cfg : Settings) (env : Env) (hashtag : String)
    (limit : Int) :
    ∀ (stories : List HNStory) (st : St) (c : Int), c ≤ limit →
      (hn_loop cfg env hashtag limit stories st c).2 ≤ limit
  | [], st, c, h => h
  | story :: rest, st, c, h => by
    have ih := hn_loop_count_le cfg env hashtag limit rest
    unfold hn_loop
    split
    · exact h
    · rename_i hlt
      dsimp only
      repeat' split
      all_goals first
        | exact ih _ c h
        | exact ih _ (c + 1) (by omega)

theorem process_research_count (cfg : Settings) (env : Env) (now limit : Int)
    (st : St) :
    0 ≤ (process_research cfg env now limit st).2 ∧
    ((0 : Int) ≤ limit → (process_research cfg env now limit st).2 ≤ limit) := by
  unfold process_research
  exact ⟨feed_loop_count_mono cfg env now _ cfg.research_tags "research" limit
      cfg.research_feeds st 0,
    fun h => feed_loop_count_le cfg env now _ cfg.research_tags "research" limit
      cfg.research_feeds st 0 h⟩

theorem process_newsletters_count (cfg : Settings) (env : Env) (now limit : Int)
    (st : St) :
    0 ≤ (process_newsletters cfg env now limit st).2 ∧
    ((0 : Int) ≤ limit → (process_newsletters cfg env now limit st).2 ≤ limit) := by
  unfold process_newsletters
  exact ⟨feed_loop_count_mono cfg env now _ cfg.newsletter_source_types
      "newsletter" limit cfg.newsletter_feeds st 0,
    fun h => feed_loop_count_le cfg env now _ cfg.newsletter_source_types
      "newsletter" limit cfg.newsletter_feeds st 0 h⟩

theorem process_hacker_news_count (cfg : Settings) (env : Env) (limit : Int)
    (st : St) :
    0 ≤ (process_hacker_news cfg env limit st).2 ∧
    ((0 : Int) ≤ limit → (process_hacker_news cfg env limit st).2 ≤ limit) := by
  unfold process_hacker_news
  split
  · exact ⟨le_refl 0, fun h => h⟩
  · exact ⟨hn_loop_count_mono cfg env _ limit (env.stories limit) st 0,
      fun h => hn_loop_count_le cfg env _ limit (env.stories limit) st 0 h⟩

/-- C1: for every configuration with a non-negative budget and every cycle,
the total advanced count reported by `run_once` — the sum of the research,
newsletter and story-index phase counters, each limited to the budget left
by the previous phase — stays within `max_items_per_run` (and is never
negative). -/
theorem c1_cycle_budget_bound (cfg : Settings) (env : Env) (now : Int)
    (st : St) (h : 0 ≤ cfg.max_items_per_run) :
    0 ≤ (run_once cfg env now st).logged_total ∧
    (run_once cfg env now st).logged_total ≤ cfg.max_items_per_run := by
  unfold run_once
  dsimp only
  set r := process_research cfg env now cfg.max_items_per_run st with hrdef
  obtain ⟨hr0, hrb⟩ := process_research_count cfg env now cfg.max_items_per_run st
  rw [← hrdef] at hr0 hrb
  have hr1 := hrb h
  split
  next hc1 =>
    set n := process_newsletters cfg env now (cfg.max_items_per_run - r.2) r.1
      with hndef
    obtain ⟨hn0, hnb⟩ := process_newsletters_count cfg env now
      (cfg.max_items_per_run - r.2) r.1
    rw [← hndef] at hn0 hnb
    have hn1 := hnb (by omega)
    split
    next hc2 =>
      obtain ⟨hg, -, -⟩ := hc2
      set hh := process_hacker_news cfg env
        (cfg.max_items_per_run - r.2 - n.2) n.1 with hhdef
      obtain ⟨hh0, hhb⟩ := process_hacker_news_count cfg env
        (cfg.max_items_per_run - r.2 - n.2) n.1
      rw [← hhdef] at hh0 hhb
      have hh1 := hhb (by omega)
      constructor <;> omega
    next => constructor <;> omega
  next hc1 =>
    dsimp only
    split
    next hc2 =>
      obtain ⟨hg, -, -⟩ := hc2
      exact absurd hg (by omega)
    next => constructor <;> omega

theorem c1_cycle_budget_bound_witness :
    (0 : Int) ≤ ({ telegram_chat_id := "chat" } : Settings).max_items_per_run ∧
    (0 ≤ (run_once { telegram_chat_id := "chat" } { } 0 { }).logged_total ∧
      (run_once { telegram_chat_id := "chat" } { } 0 { }).logged_total
        ≤ ({ telegram_chat_id := "chat" } : Settings).max_items_per_run) :=
  ⟨by decide, c1_cycle_budget_bound { telegram_chat_id := "chat" } { } 0 { }
    (by decide)⟩

/-! ### All-failures lemmas (for C2) -/

theorem translate_perm_fail (mode key : String)
    (att : String → Nat → NetOutcome String) (text : String)
    (hmode : mode ≠ "dev") (hfail : ∀ s n, att s n = NetOutcome.permErr) :
    (translate_full_text mode key att text).1 = Except.error () := by
  unfold translate_full_text
  rw [if_neg hmode]
  unfold call_openrouter
  split
  · rfl
  · simp [retryFrom, hfail]

theorem process_entry_transfail (cfg : Settings) (env : Env)
    (now lookback : Int) (tags : List String)
    (item_type feed_url hashtag : String) (e : Entry) (st : St)
    (hmode : cfg.translator_mode ≠ "dev")
    (hfail : ∀ s n, env.trans_att s n = NetOutcome.permErr) :
    process_entry cfg env now lookback tags item_type feed_url hashtag e st
      = (st, false) := by
  have htr := translate_perm_fail cfg.translator_mode cfg.openrouter_api_key
    env.trans_att (entry_article_text env e) hmode hfail
  unfold process_entry
  repeat' split
  all_goals simp_all

theorem entry_loop_transfail (cfg : Settings) (env : Env) (now lookback : Int)
    (tags : List String) (item_type feed_url hashtag : String) (limit : Int)
    (hmode : cfg.translator_mode ≠ "dev")
    (hfail : ∀ s n, env.trans_att s n = NetOutcome.permErr) :
    ∀ (es : List Entry) (st : St) (c : Int),
      entry_loop cfg env now lookback tags item_type feed_url hashtag limit
        es st c = (st, c)
  | [], st, c => rfl
  | e :: es, st, c => by
    unfold entry_loop
    split
    · rfl
    · rw [process_entry_transfail cfg env now lookback tags item_type feed_url
        hashtag e st hmode hfail]
      exact entry_loop_transfail cfg env now lookback tags item_type feed_url
        hashtag limit hmode hfail es st c

theorem feed_loop_transfail (cfg : Settings) (env : Env) (now lookback : Int)
    (tags : List String) (item_type : String) (limit : Int)
    (hmode : cfg.translator_mode ≠ "dev")
    (hfail : ∀ s n, env.trans_att s n = NetOutcome.permErr) :
    ∀ (fs : List String) (st : St) (c : Int),
      feed_loop cfg env now lookback tags item_type limit fs st c = (st, c)
  | [], st, c => rfl
  | f :: fs, st, c => by
    unfold feed_loop
    split
    · rfl
    · dsimp only
      rw [entry_loop_transfail cfg env now lookback tags item_type f
        (get_source_hashtag f) limit hmode hfail (env.fetch_feed f) st c]
      exact feed_loop_transfail cfg env now lookback tags item_type limit
        hmode hfail fs st c

theorem hn_loop_transfail (cfg : Settings) (env : Env) (hashtag : String)
    (limit : Int)
    (hmode : cfg.translator_mode ≠ "dev")
    (hfail : ∀ s n, env.trans_att s n = NetOutcome.permErr) :
    ∀ (stories : List HNStory) (st : St) (c : Int),
      hn_loop cfg env hashtag limit stories st c = (st, c)
  | [], st, c => rfl
  | story :: rest, st, c => by
    have ih := hn_loop_transfail cfg env hashtag limit hmode hfail rest st c
    have htr : ∀ text, (translate_full_text cfg.translator_mode
        cfg.openrouter_api_key env.trans_att text).1 = Except.error () :=
      fun text => translate_perm_fail cfg.translator_mode cfg.openrouter_api_key
        env.trans_att text hmode hfail
    unfold hn_loop
    repeat' split
    all_goals simp_all

/-- C2 (corrected): `run_once` always completes, and it logs — but does not
return — the advanced count: its Python return value is `None`. Even when
every per-entry translation step fails, the cycle completes, reports a count
of 0, and leaves the state untouched. -/
theorem c2_run_once_always_completes (cfg : Settings) (env : Env) (now : Int)
    (st : St) (hmode : cfg.translator_mode ≠ "dev")
    (hfail : ∀ s n, env.trans_att s n = NetOutcome.permErr) :
    run_once cfg env now st
      = { state := st, logged_total := 0, py_return := none } := by
  unfold run_once process_research process_newsletters process_hacker_news
  dsimp only
  rw [feed_loop_transfail cfg env now _ cfg.research_tags "research" _ hmode
    hfail cfg.research_feeds st 0]
  dsimp only
  split
  · rw [feed_loop_transfail cfg env now _ cfg.newsletter_source_types
      "newsletter" _ hmode hfail cfg.newsletter_feeds st 0]
    dsimp only
    split
    · split
      · rfl
      · rw [hn_loop_transfail cfg env _ _ hmode hfail (env.stories _) st 0]
        rfl
    · rfl
  · dsimp only
    split
    · split
      · rfl
      · rw [hn_loop_transfail cfg env _ _ hmode hfail (env.stories _) st 0]
        rfl
    · rfl

theorem c2_run_once_always_completes_witness :
    run_once { telegram_chat_id := "chat", translator_mode := "prod", research_feeds := ["https://messari.substack.com/feed"] } { fetch_feed := fun _ => [{ id := some "a1", title := some "T", summary := some "s" }] } 0 { }
      = { state := { }, logged_total := 0, py_return := none } :=
  c2_run_once_always_completes _ _ 0 { } (by decide) (fun _ _ => rfl)

/-- C2 counterexample: at a concrete configuration the Python value returned
by `run_once` is `None`, not the cycle's advanced count — the function is
annotated `-> None` and has no return statement. -/
theorem c2_run_once_returns_none_counterexample :
    (run_once { telegram_chat_id := "chat" } { } 0 { }).py_return
      ≠ some (run_once { telegram_chat_id := "chat" } { } 0 { }).logged_total := by
  decide

theorem c9_dry_run_no_state_change_witness :
    (run_once { telegram_chat_id := "chat", research_feeds := ["https://messari.substack.com/feed"] } { dry_run := true, fetch_feed := fun _ => [{ id := some "a1", title := some "T", summary := some "s" }] } 0 { }).state = { } :=
  c9_dry_run_no_state_change _ _ 0 { } rfl

/-! ### Story-index lemmas (for C10) -/

theorem send_text_ok (cfg : Settings) (env : Env) (text : String) (tc : Bool)
    (st : St) (hdry : env.dry_run = false)
    (hsend : ∀ tgt txt n, env.send_att tgt txt n = NetOutcome.ok ()) :
    (send_text cfg env text tc st).2 = true ∧
    (send_text cfg env text tc st).1.ledger = st.ledger := by
  unfold send_text send_text_raw
  rw [hdry]
  simp [retryFrom, hsend]

theorem deliver_item_ok (cfg : Settings) (env : Env) (item : ProcessedItem)
    (bullets : List String) (hashtag : String) (st : St)
    (hdry : env.dry_run = false)
    (hsend : ∀ tgt txt n, env.send_att tgt txt n = NetOutcome.ok ()) :
    (deliver_item cfg env item bullets hashtag st).2 = true ∧
    (deliver_item cfg env item bullets hashtag st).1.ledger = st.ledger := by
  unfold deliver_item
  split
  · exact ⟨rfl, rfl⟩
  · dsimp only
    obtain ⟨h2, hl⟩ := send_text_ok cfg env
      (compose_message item bullets hashtag) false st hdry hsend
    have hpair : send_text cfg env (compose_message item bullets hashtag)
        false st
        = ((send_text cfg env (compose_message item bullets hashtag)
            false st).1,
           (send_text cfg env (compose_message item bullets hashtag)
            false st).2) := rfl
    rw [h2] at hpair
    rw [hpair]
    dsimp only
    split
    · obtain ⟨h2c, hlc⟩ := send_text_ok cfg env
        (compose_message item bullets hashtag) true
        (send_text cfg env (compose_message item bullets hashtag) false st).1
        hdry hsend
      exact ⟨h2c, hlc.trans hl⟩
    · exact ⟨rfl, hl⟩

theorem deliver_item_ok_pair (cfg : Settings) (env : Env)
    (item : ProcessedItem) (bullets : List String) (hashtag : String)
    (st : St) (hdry : env.dry_run = false)
    (hsend : ∀ tgt txt n, env.send_att tgt txt n = NetOutcome.ok ()) :
    deliver_item cfg env item bullets hashtag st
      = ((deliver_item cfg env item bullets hashtag st).1, true) := by
  obtain ⟨h2, -⟩ := deliver_item_ok cfg env item bullets hashtag st hdry hsend
  have hpair : deliver_item cfg env item bullets hashtag st
      = ((deliver_item cfg env item bullets hashtag st).1,
         (deliver_item cfg env item bullets hashtag st).2) := rfl
  rw [h2] at hpair
  exact hpair

theorem deliver_item_ok_ledger (cfg : Settings) (env : Env)
    (item : ProcessedItem) (bullets : List String) (hashtag : String)
    (st : St) (hdry : env.dry_run = false)
    (hsend : ∀ tgt txt n, env.send_att tgt txt n = NetOutcome.ok ()) :
    (deliver_item cfg env item bullets hashtag st).1.ledger = st.ledger :=
  (deliver_item_ok cfg env item bullets hashtag st hdry hsend).2

theorem hn_loop_break (cfg : Settings) (env : Env) (hashtag : String)
    (limit : Int) (stories : List HNStory) (st : St) (c : Int)
    (h : c ≥ limit) : hn_loop cfg env hashtag limit stories st c = (st, c) := by
  cases stories with
  | nil => rfl
  | cons story rest =>
    unfold hn_loop
    rw [if_pos h]

theorem hn_loop_skip (cfg : Settings) (env : Env) (hashtag : String)
    (limit : Int) (story : HNStory) (rest : List HNStory) (st : St) (c : Int)
    (hlim : ¬c ≥ limit)
    (hdup : is_processed st.ledger ("hn_" ++ toString story.id) = true) :
    hn_loop cfg env hashtag limit (story :: rest) st c
      = hn_loop cfg env hashtag limit rest st c := by
  conv_lhs => rw [hn_loop]
  rw [if_neg hlim]
  dsimp only
  rw [if_pos hdup]

theorem hn_loop_runs (cfg : Settings) (env : Env) (hashtag : String)
    (limit : Int)
    (hmode : cfg.translator_mode = "dev")
    (hdry : env.dry_run = false)
    (hsend : ∀ tgt txt n, env.send_att tgt txt n = NetOutcome.ok ()) :
    ∀ (stories : List HNStory) (st : St) (c : Int), c ≤ limit →
      (∀ s ∈ stories, is_processed st.ledger ("hn_" ++ toString s.id) = false) →
      (stories.map (fun s => "hn_" ++ toString s.id)).Nodup →
      (hn_loop cfg env hashtag limit stories st c).2
        = min limit (c + (stories.length : Int))
  | [], st, c, hcl, _, _ => by
    simp [hn_loop]
    omega
  | story :: rest, st, c, hcl, hfresh, hnodup => by
    have htr : ∀ (k : String) att text,
        (translate_full_text cfg.translator_mode k att text).1
          = Except.ok ("Перевод (заглушка, ru): " ++ text) := by
      intro k att text
      rw [hmode]
      simp [translate_full_text]
    have hsm : ∀ (k : String) att text,
        (summarize_to_bullets cfg.translator_mode k att text).1
          = Except.ok (devBullets text) := by
      intro k att text
      rw [hmode]
      simp [summarize_to_bullets]
    by_cases hlim : c ≥ limit
    · rw [hn_loop_break cfg env hashtag limit _ st c hlim]
      have hlen : (0 : Int) ≤ ((story :: rest).length : Int) := by positivity
      simp only []
      omega
    · unfold hn_loop
      rw [if_neg hlim]
      dsimp only
      rw [if_neg (by simp [hfresh story (List.mem_cons_self story rest)])]
      rw [htr, hsm]
      dsimp only
      rw [deliver_item_ok_pair cfg env _ _ hashtag st hdry hsend]
      dsimp only
      simp only [hdry, Bool.false_eq_true, if_false]
      rw [deliver_item_ok_ledger cfg env _ _ hashtag st hdry hsend]
      rw [List.map_cons] at hnodup
      have hnodup' := List.nodup_cons.mp hnodup
      rw [hn_loop_runs cfg env hashtag limit hmode hdry hsend rest _ (c + 1)
        (by omega) ?_ hnodup'.2]
      · simp only [List.length_cons]
        omega
      · intro s hs
        dsimp only
        rw [is_processed_mark, hfresh s (List.mem_cons_of_mem story hs)]
        simp only [Bool.false_or, beq_eq_false_iff_ne]
        intro hEq
        exact hnodup'.1 (hEq ▸ List.mem_map_of_mem _ hs)

/-- C10: story-index items see neither the keyword/tag filter nor the
freshness filter — only the dedup check on the derived id
`"hn_" ++ story id`. With a working pipeline, every not-yet-recorded story
returned by the story-index client is processed, whatever its timestamp or
content, up to the remaining budget; and a story whose derived id is
already recorded is skipped with nothing changed. -/
theorem c10_hn_dedup_only_filter (cfg : Settings) (env : Env) (limit : Int)
    (stories : List HNStory) (st : St) (story : HNStory)
    (rest : List HNStory) (st2 : St) (c : Int) (hash2 : String)
    (hmode : cfg.translator_mode = "dev")
    (hdry : env.dry_run = false)
    (hsend : ∀ tgt txt n, env.send_att tgt txt n = NetOutcome.ok ())
    (hhn : env.has_hn = true)
    (hstories : env.stories limit = stories)
    (h0 : 0 ≤ limit)
    (hfresh : ∀ s ∈ stories,
      is_processed st.ledger ("hn_" ++ toString s.id) = false)
    (hnodup : (stories.map (fun s => "hn_" ++ toString s.id)).Nodup)
    (hdup : is_processed st2.ledger ("hn_" ++ toString story.id) = true) :
    (process_hacker_news cfg env limit st).2
      = min limit (stories.length : Int) ∧
    hn_loop cfg env hash2 limit (story :: rest) st2 c
      = hn_loop cfg env hash2 limit rest st2 c := by
  constructor
  · unfold process_hacker_news
    rw [if_neg (by simp [hhn]), hstories]
    rw [hn_loop_runs cfg env _ limit hmode hdry hsend stories st 0 h0 hfresh
      hnodup]
    simp
  · by_cases hlim : c ≥ limit
    · rw [hn_loop_break cfg env hash2 limit _ st2 c hlim,
        hn_loop_break cfg env hash2 limit rest st2 c hlim]
    · exact hn_loop_skip cfg env hash2 limit story rest st2 c hlim hdup

theorem c10_hn_dedup_only_filter_witness :
    (process_hacker_news { telegram_chat_id := "chat" } { dry_run := false, has_hn := true, stories := fun _ => [{ id := 1, title := "A" }, { id := 2, title := "B" }] } 5 { }).2
      = min 5 ((([{ id := 1, title := "A" }, { id := 2, title := "B" }] : List HNStory).length : Int)) ∧
    hn_loop { telegram_chat_id := "chat" } { dry_run := false, has_hn := true, stories := fun _ => [{ id := 1, title := "A" }, { id := 2, title := "B" }] } "#HackerNews" 5 [{ id := 1, title := "A" }] ⟨[("hn_1", "hn", some "0")], []⟩ 0
      = hn_loop { telegram_chat_id := "chat" } { dry_run := false, has_hn := true, stories := fun _ => [{ id := 1, title := "A" }, { id := 2, title := "B" }] } "#HackerNews" 5 [] ⟨[("hn_1", "hn", some "0")], []⟩ 0 :=
  c10_hn_dedup_only_filter { telegram_chat_id := "chat" }
    { dry_run := false, has_hn := true, stories := fun _ => [{ id := 1, title := "A" }, { id := 2, title := "B" }] }
    5 [{ id := 1, title := "A" }, { id := 2, title := "B" }] { }
    { id := 1, title := "A" } [] ⟨[("hn_1", "hn", some "0")], []⟩ 0 "#HackerNews"
    rfl rfl (fun _ _ _ => rfl) rfl rfl (by decide) (by decide) (by decide)
    (by decide)

end Bot
